import Mathlib

/-!
Verification development for the HYSTERESIS tape-emulation plugin
(`src/lib.rs`, `src/compute.rs`).

The Rust sources are shallowly embedded: `f32` signal values become exact
real numbers `ℝ` (floating-point rounding is out of scope), the
`Xoshiro256Plus` random generator and its `seed_from_u64` construction are
embedded bit-exactly over `Nat` modulo `2^64`, the `VecDeque` delay lines
become `List ℝ` with push-back/pop-front, and the per-sample body of
`Effect::process` becomes the pure state-transition function
`processSample`.  Fallible buffer reads (`VecDeque::get(..).unwrap()`)
are modelled by `Option`: `delayRead` returns `none` exactly where the
source would panic, and the total pipeline substitutes `0` there via
`Option.getD` (that case is what claim theorems about read-index safety
are about).

`Effect::process` additionally returns the list of RNG call sites in
execution order (`Site`), so that theorems about the draw order of the
shared RNG stream can be stated; the trace is pure instrumentation and
carries no signal information.
-/

/-! ## Embedding of `rand_xoshiro::Xoshiro256Plus` and `seed_from_u64` -/

/-- 64-bit left rotation (Rust `u64::rotate_left`) on `Nat` values `< 2^64`. -/
def rotl64 (x k : Nat) : Nat :=
  (((x <<< k) % 2 ^ 64) ||| (x >>> (64 - k))) % 2 ^ 64

/-- 32-bit right rotation (Rust `u32::rotate_right`) on `Nat` values `< 2^32`. -/
def rotr32 (x r : Nat) : Nat :=
  (((x >>> (r % 32)) ||| ((x <<< ((32 - r % 32) % 32)) % 2 ^ 32)) % 2 ^ 32)

/-- State of the `Xoshiro256Plus` generator: four 64-bit words. -/
structure Xoshiro256Plus where
  s0 : Nat
  s1 : Nat
  s2 : Nat
  s3 : Nat
  deriving DecidableEq, Repr

/-- `Xoshiro256Plus::next_u64`: the returned value is `s0 +w s3`; the state
update is the xoshiro xor/shift/rotate network, all modulo `2^64`. -/
def Xoshiro256Plus.next (g : Xoshiro256Plus) : Nat × Xoshiro256Plus :=
  let result := (g.s0 + g.s3) % 2 ^ 64
  let t := (g.s1 <<< 17) % 2 ^ 64
  let a2 := g.s2 ^^^ g.s0
  let a3 := g.s3 ^^^ g.s1
  let a1 := g.s1 ^^^ a2
  let a0 := g.s0 ^^^ a3
  let b2 := a2 ^^^ t
  let b3 := rotl64 a3 45
  (result, ⟨a0, a1, b2, b3⟩)

/-- One step of the PCG32 stream used by rand_core's default
`SeedableRng::seed_from_u64` to expand a `u64` seed into seed bytes:
advance the LCG state, then output a xorshifted/rotated 32-bit word. -/
def pcg32Step (state : Nat) : Nat × Nat :=
  let state' := (state * 6364136223846793005 + 11634580027462260723) % 2 ^ 64
  let xorshifted := (((state' >>> 18) ^^^ state') >>> 27) % 2 ^ 32
  let rot := state' >>> 59
  (rotr32 xorshifted rot, state')

/-- `Xoshiro256Plus::seed_from_u64`: eight PCG32 outputs fill the 32-byte
seed little-endian; consecutive pairs of 32-bit words form the four
64-bit state words. -/
def xoshiroSeedFromU64 (seed : Nat) : Xoshiro256Plus :=
  let p1 := pcg32Step seed
  let p2 := pcg32Step p1.2
  let p3 := pcg32Step p2.2
  let p4 := pcg32Step p3.2
  let p5 := pcg32Step p4.2
  let p6 := pcg32Step p5.2
  let p7 := pcg32Step p6.2
  let p8 := pcg32Step p7.2
  ⟨p1.1 + p2.1 * 2 ^ 32, p3.1 + p4.1 * 2 ^ 32, p5.1 + p6.1 * 2 ^ 32, p7.1 + p8.1 * 2 ^ 32⟩

/-- Model of the source's uniform-variate construction
`(rng.next_u64() as f32) / (u64::MAX as f32)` as an exact real. -/
noncomputable def u64ToUnit (n : Nat) : ℝ :=
  (n : ℝ) / 18446744073709551615

theorem u64ToUnit_nonneg (n : Nat) : 0 ≤ u64ToUnit n := by
  unfold u64ToUnit
  positivity

theorem next_fst_lt (g : Xoshiro256Plus) : g.next.1 < 2 ^ 64 := by
  unfold Xoshiro256Plus.next
  exact Nat.mod_lt _ (by norm_num)

theorem u64ToUnit_le_one {n : Nat} (h : n < 2 ^ 64) : u64ToUnit n ≤ 1 := by
  unfold u64ToUnit
  rw [div_le_one (by norm_num)]
  have : (n : ℝ) ≤ ((2 ^ 64 - 1 : Nat) : ℝ) := by
    exact_mod_cast Nat.le_of_lt_succ (by omega)
  calc (n : ℝ) ≤ ((2 ^ 64 - 1 : Nat) : ℝ) := this
    _ = 18446744073709551615 := by norm_num

/-! ## Embedding of `src/compute.rs` -/

/-- `compute::diff`: discrete derivative approximation `(x - x_p)/T`. -/
noncomputable def diff (x x_p T : ℝ) : ℝ := (x - x_p) / T

/-- Rust `f32::signum` restricted to non-NaN input: `1.0` for `x ≥ 0`
(including `+0.0`, which is what the pipeline produces at silence),
`-1.0` for `x < 0`. -/
noncomputable def sgn (x : ℝ) : ℝ := if x < 0 then -1 else 1

/-- Real arctanh, `f32::atanh`: `log ((1+x)/(1-x)) / 2`. -/
noncomputable def atanh (x : ℝ) : ℝ := Real.log ((1 + x) / (1 - x)) / 2

theorem atanh_zero : atanh 0 = 0 := by
  unfold atanh
  norm_num

/-- `compute::digi_xover`. -/
noncomputable def digi_xover (x amt w : ℝ) : ℝ :=
  x - (if |x| < w then x / (atanh amt + 1) else sgn x * w / (atanh amt + 1))

/-- `compute::analog_xover`. -/
noncomputable def analog_xover (x amt w : ℝ) : ℝ :=
  let soft := 1 - amt
  let trans := fun t : ℝ => (2 * w + soft - 2.82842712 * Real.sqrt (soft * (w - t))) / 2
  let x_abs := |x|
  if x_abs < w - soft / 2 then (trans x_abs - trans 0) * sgn x
  else (x_abs - trans 0) * sgn x

/-- `compute::tape_sat_1`: piecewise sine with linear tails, then `tanh`. -/
noncomputable def tape_sat_1 (x : ℝ) : ℝ :=
  let sat_1 :=
    if x < -1.4 then 0.169967143 * (x + 1.4) - 0.98544972998
    else if x > 1.4 then 0.169967143 * (x - 1.4) + 0.98544972998
    else Real.sin x
  Real.tanh (sat_1 * 0.8)

/-- `compute::tape_sat_2`: continued-fraction rational approximation. -/
noncomputable def tape_sat_2 (x : ℝ) : ℝ :=
  let x_2 := x * x
  x / (1 + x_2 / (3 + x_2 / (5 + x_2 / (7 + x_2 / 13))))

/-- `compute::soft_clip`: logistic soft clip. -/
noncomputable def soft_clip (x : ℝ) : ℝ :=
  0.2 * Real.log ((1 + Real.exp (10 * x + 5)) / (1 + Real.exp (10 * x - 5))) - 1

/-- `compute::tupe_sat`: tangent/tanh blend. -/
noncomputable def tupe_sat (x : ℝ) : ℝ :=
  let tg := Real.tan (1.4549654 * x) / 4
  let sat := Real.tanh (1.4549654 * x)
  let fade := if |x| > 1.28741055 then 1 else 1 / 1.28741055 * |x|
  tg * (fade - 1) + sat * fade

/-- `compute::x_quant`: stochastic quantization.  Draws one uniform variate
from the shared stream and switches to `x` iff it is below
`|dx| * (1-q)^(T*44100*8)`, else holds `x_p`. -/
noncomputable def x_quant (x x_p T q : ℝ) (rng : Xoshiro256Plus) : ℝ × Xoshiro256Plus :=
  let dx := diff x x_p T
  let adx := |dx|
  let d := rng.next
  let r := u64ToUnit d.1
  if r < adx * (1 - q) ^ (T * 44100 * 8 : ℝ) then (x, d.2) else (x_p, d.2)

/-- `compute::play`: one-pole lowpass `x*(1-cut) + y_p*cut`. -/
noncomputable def play (x y_p cut : ℝ) : ℝ := x * (1 - cut) + y_p * cut

/-! ## Embedding of `src/lib.rs` -/

/-- `const MOD_RATE: f32 = 0.23`. -/
noncomputable def MOD_RATE : ℝ := 0.23

/-- `const LP_1_CUT: f32 = 15.0`. -/
noncomputable def LP_1_CUT : ℝ := 15.0

/-- `const HP_1_CUT: f32 = 2.5`. -/
noncomputable def HP_1_CUT : ℝ := 2.5

/-- `const HP_2_CUT: f32 = 500.0`. -/
noncomputable def HP_2_CUT : ℝ := 500.0

/-- `std::f32::consts::TAU`. -/
noncomputable def TAU : ℝ := 2 * Real.pi

/-- RNG call sites of one iteration of the `Effect::process` loop body, used
to record the order in which the shared stream is consumed. -/
inductive Site where
  | recL
  | recR
  | quantL
  | quantR
  | grain
  | flutter
  | playL
  | playR
  deriving DecidableEq, Repr

/-- The normalized `[0,1]` parameter set of `EffectParameters` (atomic
floats in the source; one per-sample snapshot here). -/
structure EffectParameters where
  pre_gain : ℝ
  bias : ℝ
  hysteresis : ℝ
  mode : ℝ
  drive : ℝ
  quantum : ℝ
  wow : ℝ
  flutter : ℝ
  erase : ℝ
  hiss : ℝ
  dry_wet : ℝ
  post_gain : ℝ

/-- `EffectParameters::default`. -/
noncomputable def EffectParameters.default : EffectParameters where
  pre_gain := 0.5
  bias := 0.5
  hysteresis := 0.0
  mode := 0.0
  drive := 0.0
  quantum := 0.0
  wow := 0.0
  flutter := 0.0
  erase := 0.0
  hiss := 0.0
  dry_wet := 1.0
  post_gain := 0.70710678

/-- The mutable state of the `Effect` plugin struct (parameters excluded:
they are read afresh each sample and are passed to `processSample`
explicitly, modelling the atomic loads from the shared parameter object). -/
structure Effect where
  rng : Xoshiro256Plus
  sr : ℝ
  rate : ℝ
  xl_q_z1 : ℝ
  xr_q_z1 : ℝ
  xl_h_z1 : ℝ
  xr_h_z1 : ℝ
  xl_e_z1 : ℝ
  xr_e_z1 : ℝ
  yl_z1 : ℝ
  yr_z1 : ℝ
  ramp_1 : ℝ
  ramp_2 : ℝ
  ramp_mod : ℝ
  lp_1_z1 : ℝ
  lp_1_z2 : ℝ
  flut_z1 : ℝ
  hp_1_z1 : ℝ
  hp_2_z1 : ℝ
  rec_nse_l_z1 : ℝ
  rec_nse_r_z1 : ℝ
  play_nse_l_z1 : ℝ
  play_nse_r_z1 : ℝ
  dly_line_l : List ℝ
  dly_line_r : List ℝ
  dry_line_l : List ℝ
  dry_line_r : List ℝ

/-- `Effect::default`: all registers zero, delay lines filled with zeros
(4410 wet / 2205 dry), RNG seeded with the fixed construction seed
`33186003` (not time-seeded). -/
noncomputable def Effect.default : Effect where
  rng := xoshiroSeedFromU64 33186003
  sr := 44100.0
  rate := 1 / 44100.0
  xl_q_z1 := 0.0
  xr_q_z1 := 0.0
  xl_h_z1 := 0.0
  xr_h_z1 := 0.0
  xl_e_z1 := 0.0
  xr_e_z1 := 0.0
  yl_z1 := 0.0
  yr_z1 := 0.0
  ramp_1 := 0.0
  ramp_2 := 0.0
  ramp_mod := 0.0
  lp_1_z1 := 0.0
  lp_1_z2 := 0.0
  flut_z1 := 0.0
  hp_1_z1 := 0.0
  hp_2_z1 := 0.0
  rec_nse_l_z1 := 0.0
  rec_nse_r_z1 := 0.0
  play_nse_l_z1 := 0.0
  play_nse_r_z1 := 0.0
  dly_line_l := List.replicate 4410 0.0
  dly_line_r := List.replicate 4410 0.0
  dry_line_l := List.replicate 2205 0.0
  dry_line_r := List.replicate 2205 0.0

/-- Modelled from the spec: `compute::soft_sat_1` is called by `lib.rs`
(saturation mode 0) but is absent from `src/compute.rs`; the spec
describes the saturation library as tanh-family fast approximations
mapping ℝ to (-1,1), monotone with `f(0) = 0`, so it is modelled as
`Real.tanh`. -/
noncomputable def soft_sat_1 (x : ℝ) : ℝ := Real.tanh x

/-- Modelled from the spec: `compute::mag_sat_1` (mode 1, "tungsten") is
absent from `src/compute.rs`; modelled as `Real.tanh` per the spec's
curve contract. -/
noncomputable def mag_sat_1 (x : ℝ) : ℝ := Real.tanh x

/-- Modelled from the spec: `compute::mag_sat_2` (mode 2, "steel") is
absent from `src/compute.rs`; modelled as `Real.tanh`. -/
noncomputable def mag_sat_2 (x : ℝ) : ℝ := Real.tanh x

/-- Modelled from the spec: `compute::mag_sat_3` (mode 3, "iron") is
absent from `src/compute.rs`; modelled as `Real.tanh`. -/
noncomputable def mag_sat_3 (x : ℝ) : ℝ := Real.tanh x

/-- Modelled from the spec: `compute::mag_sat_4` (mode 4, "nickel") is
absent from `src/compute.rs`; modelled as `Real.tanh`. -/
noncomputable def mag_sat_4 (x : ℝ) : ℝ := Real.tanh x

/-- Modelled from the spec: `compute::mag_sat_5` (mode 5, "magnetite") is
absent from `src/compute.rs`; modelled as `Real.tanh`. -/
noncomputable def mag_sat_5 (x : ℝ) : ℝ := Real.tanh x

/-- One phase-accumulator update from `Effect::process`: if the previous
value exceeds `TAU` it is reset to exactly `0`, otherwise the increment
is added.  Note the test is on the value before the increment. -/
noncomputable def rampUpdate (r inc : ℝ) : ℝ :=
  if r > TAU then 0 else r + inc

/-- The dc-decouple stage of `Effect::process` (source comment:
"essentially just a high pass filter at 5Hz"): `x - y_z1*0.25` where
`y_z1` is the previous output of this stage. -/
noncomputable def dc_decouple (x y_z1 : ℝ) : ℝ := x - y_z1 * 0.25

/-- The recording-noise / playback-noise blocks of `Effect::process`: two
uniform draws, one per channel, each blue-noisified against its own `z1`
register, scaled by `hiss*scale` and added.  Returns the new channel
values, the new `z1` registers, and the advanced RNG. -/
noncomputable def blueNoiseAdd (rng : Xoshiro256Plus) (hiss scale zl zr xl xr : ℝ) :
    (ℝ × ℝ) × (ℝ × ℝ) × Xoshiro256Plus :=
  let d1 := rng.next
  let d2 := d1.2.next
  let nl := u64ToUnit d1.1 - zl * 0.5
  let nr := u64ToUnit d2.1 - zr * 0.5
  ((xl + nl * hiss * scale, xr + nr * hiss * scale), (nl, nr), d2.2)

/-- The grain-noise block of `Effect::process`: a single uniform draw,
raised to the 18th power, scaled by `hiss*0.33`, added identically to
both channels. -/
noncomputable def grainNoise (rng : Xoshiro256Plus) (hiss xl xr : ℝ) :
    (ℝ × ℝ) × Xoshiro256Plus :=
  let d := rng.next
  let grain := u64ToUnit d.1 ^ (18 : ℕ)
  ((xl + grain * hiss * 0.33, xr + grain * hiss * 0.33), d.2)

/-- The modulated delay read of `Effect::process`: read index
`2205*mod`, floored to a `usize` (saturating at `0` for negative input),
then the two adjacent buffer cells are fetched and linearly interpolated
on the fractional remainder.  `none` models the source's
`VecDeque::get(..).unwrap()` panicking on an out-of-range index. -/
noncomputable def delayRead (dly : List ℝ) (m : ℝ) : Option ℝ :=
  let read_idx := 2205 * m
  let read_idx_i := (Int.floor read_idx).toNat
  let read_idx_r := read_idx - (read_idx_i : ℝ)
  match dly[read_idx_i]?, dly[read_idx_i + 1]? with
  | some x_1, some x_2 => some (x_1 * (1 - read_idx_r) + x_2 * read_idx_r)
  | some _, none => none
  | none, _ => none

/-- One iteration of the `Effect::process` sample loop, in source order:
per-sample parameter mapping, pre-gain and bias, dry capture, recording
noise, hysteresis, stochastic quantization, saturation (mode-selected),
grain noise, wow/flutter oscillators and flutter filter cascade,
modulated delay read, self-erasure, playback noise, dc-decouple, dry/wet
mix, post-gain.  Returns the output pair, the new state, and the RNG
call-site trace in execution order. -/
noncomputable def processSample (p : EffectParameters) (e : Effect) (input : ℝ × ℝ) :
    (ℝ × ℝ) × Effect × List Site :=
  let quantum := p.quantum
  let erase := (1 - p.erase * 0.999) ^ (2 : ℕ)
  let hyst := p.hysteresis ^ (3 : ℕ)
  let bias := p.bias * 2 - 1
  let drive := Real.exp (5 * p.drive ^ (2 : ℕ)) * 0.5
  let pre_gain := (p.pre_gain * 2) ^ (2 : ℕ)
  let post_gain := p.post_gain ^ (2 : ℕ) * 2
  let wow := p.wow ^ (2 : ℕ)
  let flut_amt := p.flutter ^ (2 : ℕ)
  let hiss := p.hiss ^ (3 : ℕ)
  let mode := min (Int.floor (p.mode * 5 + 0.5)).toNat 255
  let dry := 1 - p.dry_wet
  let wet := p.dry_wet
  -- pre-gain
  let xl0 := input.1 * pre_gain + bias
  let xr0 := input.2 * pre_gain + bias
  -- store dry signal
  let dry_l := e.dry_line_l ++ [xl0]
  let dry_r := e.dry_line_r ++ [xr0]
  -- recording noise
  let rec0 := blueNoiseAdd e.rng hiss 0.01 e.rec_nse_l_z1 e.rec_nse_r_z1 xl0 xr0
  let xl1 := rec0.1.1
  let xr1 := rec0.1.2
  let rec_nse_l := rec0.2.1.1
  let rec_nse_r := rec0.2.1.2
  let rng1 := rec0.2.2
  -- hysteresis
  let xl2 := e.xl_h_z1 + analog_xover (xl1 - e.xl_h_z1) 0.99975 hyst
  let xr2 := e.xr_h_z1 + analog_xover (xr1 - e.xr_h_z1) 0.99975 hyst
  -- stochastic quantization
  let ql := x_quant xl2 e.xl_q_z1 e.rate quantum rng1
  let xl3 := ql.1
  let rng2 := ql.2
  let qr := x_quant xr2 e.xr_q_z1 e.rate quantum rng2
  let xr3 := qr.1
  let rng3 := qr.2
  -- saturation
  let satPair : ℝ × ℝ :=
    match mode with
    | 0 => (soft_sat_1 (xl3 * drive) / soft_sat_1 drive
              - soft_sat_1 (bias * drive) / soft_sat_1 drive,
            soft_sat_1 (xr3 * drive) / soft_sat_1 drive
              - soft_sat_1 (bias * drive) / soft_sat_1 drive)
    | 1 => (mag_sat_1 (xl3 * drive) / mag_sat_1 drive
              - mag_sat_1 (bias * drive) / mag_sat_1 drive,
            mag_sat_1 (xr3 * drive) / mag_sat_1 drive
              - mag_sat_1 (bias * drive) / mag_sat_1 drive)
    | 2 => (mag_sat_2 (xl3 * drive) / mag_sat_2 drive
              - mag_sat_2 (bias * drive) / mag_sat_2 drive,
            mag_sat_2 (xr3 * drive) / mag_sat_2 drive
              - mag_sat_2 (bias * drive) / mag_sat_2 drive)
    | 3 => (mag_sat_3 (xl3 * drive) / mag_sat_3 drive
              - mag_sat_3 (bias * drive) / mag_sat_3 drive,
            mag_sat_3 (xr3 * drive) / mag_sat_3 drive
              - mag_sat_3 (bias * drive) / mag_sat_3 drive)
    | 4 => (mag_sat_4 (xl3 * drive) / mag_sat_4 drive
              - mag_sat_4 (bias * drive) / mag_sat_4 drive,
            mag_sat_4 (xr3 * drive) / mag_sat_4 drive
              - mag_sat_4 (bias * drive) / mag_sat_4 drive)
    | 5 => (mag_sat_4 (xl3 * drive) / mag_sat_5 drive
              - mag_sat_5 (bias * drive) / mag_sat_5 drive,
            mag_sat_4 (xr3 * drive) / mag_sat_5 drive
              - mag_sat_5 (bias * drive) / mag_sat_5 drive)
    | _ => (xl3, xr3)
  let xl4 := satPair.1
  let xr4 := satPair.2
  -- grain noise
  let gr := grainNoise rng3 hiss xl4 xr4
  let xl5 := gr.1.1
  let xr5 := gr.1.2
  let rng4 := gr.2
  -- wow / flutter oscillators
  let ramp_mod := rampUpdate e.ramp_mod (TAU * (MOD_RATE / e.sr))
  let sine_mod := Real.sin ramp_mod * 0.5 + 0.5
  let rate_1 := 0.9 * sine_mod
  let ramp_1 := rampUpdate e.ramp_1 (TAU * (rate_1 / e.sr))
  let sine_1 := Real.sin ramp_1 * 0.1
  let rate_2 := 1.0 * (1 - sine_mod) + 0.35
  let ramp_2 := rampUpdate e.ramp_2 (TAU * (rate_2 / e.sr))
  let sine_2 := Real.sin ramp_2 * 0.1
  -- flutter noise and filter cascade
  let omega_1 := Real.exp (-(TAU * (LP_1_CUT / e.sr)))
  let omega_2 := Real.exp (-(TAU * (HP_1_CUT / e.sr)))
  let omega_3 := Real.exp (-(TAU * (HP_2_CUT / e.sr)))
  let fd := rng4.next
  let flutter0 := u64ToUnit fd.1
  let rng5 := fd.2
  let flutter_lp := (1 - omega_1) ^ (2 : ℕ) * flutter0 + 2 * omega_1 * e.lp_1_z1
    - omega_1 ^ (2 : ℕ) * e.lp_1_z2
  let flutter_hp_1 := (1 + omega_2) / 2 * flutter_lp - (1 + omega_2) / 2 * e.lp_1_z1
    + omega_2 * e.hp_1_z1
  let flutter_hp_2 := (1 + omega_3) / 2 * flutter0 - (1 + omega_3) / 2 * e.flut_z1
    + omega_3 * e.hp_2_z1
  let flutter1 := flutter_hp_1 * 16 + flutter_hp_2 * 0.00
  let flutter2 := flutter1 * flutter1 * flutter1
  let my_mod := 1 + (sine_1 + sine_2) * wow + flutter2 * flut_amt
  -- modulated delay line (push back, pop front, interpolated read)
  let dly_l := (e.dly_line_l ++ [xl5]).tail
  let dly_r := (e.dly_line_r ++ [xr5]).tail
  let xl6 := (delayRead dly_l my_mod).getD 0
  let xr6 := (delayRead dly_r my_mod).getD 0
  -- self-erasure
  let xl7 := e.xl_e_z1 + Real.tanh ((xl6 - e.xl_e_z1) / erase) * erase
  let xr7 := e.xr_e_z1 + Real.tanh ((xr6 - e.xr_e_z1) / erase) * erase
  -- playback noise
  let play0 := blueNoiseAdd rng5 hiss 0.03 e.play_nse_l_z1 e.play_nse_r_z1 xl7 xr7
  let xl8 := play0.1.1
  let xr8 := play0.1.2
  let play_nse_l := play0.2.1.1
  let play_nse_r := play0.2.1.2
  let rng6 := play0.2.2
  -- dc-decouple
  let xl9 := dc_decouple xl8 e.yl_z1
  let xr9 := dc_decouple xr8 e.yr_z1
  -- dry / wet
  let xl10 := xl9 * wet + dry_l.headI * dry
  let xr10 := xr9 * wet + dry_r.headI * dry
  ((xl10 * post_gain, xr10 * post_gain),
   { rng := rng6
     sr := e.sr
     rate := e.rate
     xl_q_z1 := xl3
     xr_q_z1 := xr3
     xl_h_z1 := xl2
     xr_h_z1 := xr2
     xl_e_z1 := xl7
     xr_e_z1 := xr7
     yl_z1 := xl9
     yr_z1 := xr9
     ramp_1 := ramp_1
     ramp_2 := ramp_2
     ramp_mod := ramp_mod
     lp_1_z1 := flutter_lp
     lp_1_z2 := e.lp_1_z1
     flut_z1 := flutter0
     hp_1_z1 := flutter_hp_1
     hp_2_z1 := flutter_hp_2
     rec_nse_l_z1 := rec_nse_l
     rec_nse_r_z1 := rec_nse_r
     play_nse_l_z1 := play_nse_l
     play_nse_r_z1 := play_nse_r
     dly_line_l := dly_l
     dly_line_r := dly_r
     dry_line_l := dry_l.tail
     dry_line_r := dry_r.tail },
   [Site.recL, Site.recR, Site.quantL, Site.quantR, Site.grain, Site.flutter,
    Site.playL, Site.playR])

/-- Running `Effect::process` over a block of input sample pairs:
fold of `processSample`, collecting the output pairs and the final state. -/
noncomputable def runPipeline (p : EffectParameters) (e : Effect) :
    List (ℝ × ℝ) → List (ℝ × ℝ) × Effect
  | [] => ([], e)
  | i :: is =>
    let s := processSample p e i
    let rest := runPipeline p s.2.1 is
    (s.1 :: rest.1, rest.2)

/-! ## Helper lemmas -/

theorem runPipeline_cons (p : EffectParameters) (e : Effect) (i : ℝ × ℝ) (is : List (ℝ × ℝ)) :
    runPipeline p e (i :: is) =
      ((processSample p e i).1 :: (runPipeline p (processSample p e i).2.1 is).1,
       (runPipeline p (processSample p e i).2.1 is).2) := rfl

theorem sgn_nonneg_eq_one {x : ℝ} (h : 0 ≤ x) : sgn x = 1 := by
  unfold sgn
  rw [if_neg (not_lt.2 h)]

theorem abs_mul_sgn (x : ℝ) : |x| * sgn x = x := by
  unfold sgn
  rcases lt_or_le x 0 with h | h
  · rw [if_pos h, abs_of_neg h]; ring
  · rw [if_neg (not_lt.2 h), abs_of_nonneg h]; ring

theorem x_quant_hold (x T : ℝ) (rng : Xoshiro256Plus) :
    x_quant x x T 0 rng = (x, rng.next.2) := by
  unfold x_quant
  rw [ite_self]

theorem x_quant_switch (x x_p T : ℝ) (rng : Xoshiro256Plus) (hT : 0 < T)
    (h : T < |x - x_p|) : x_quant x x_p T 0 rng = (x, rng.next.2) := by
  unfold x_quant diff
  rw [if_pos]
  rw [sub_zero, Real.one_rpow, mul_one, abs_div, abs_of_pos hT]
  calc u64ToUnit rng.next.1 ≤ 1 := u64ToUnit_le_one (next_fst_lt rng)
    _ < |x - x_p| / T := (one_lt_div hT).2 h

theorem tanh_as_exp (t : ℝ) :
    Real.tanh t = (Real.exp (2 * t) - 1) / (Real.exp (2 * t) + 1) := by
  rw [Real.tanh_eq_sinh_div_cosh, Real.sinh_eq, Real.cosh_eq, Real.exp_neg]
  have h : 0 < Real.exp t := Real.exp_pos t
  have h2 : Real.exp (2 * t) = Real.exp t * Real.exp t := by
    rw [← Real.exp_add]; ring_nf
  rw [h2]
  have h3 : 0 < Real.exp t * Real.exp t + 1 := by positivity
  have h4 : 0 < Real.exp t + (Real.exp t)⁻¹ := by positivity
  field_simp

theorem tanh_ge_lower {t : ℝ} (ht : 0 ≤ t) : t / (1 + t) ≤ Real.tanh t := by
  rw [tanh_as_exp]
  have hE := Real.add_one_le_exp (2 * t)
  have hE0 := Real.exp_pos (2 * t)
  rw [div_le_div_iff (by linarith) (by linarith)]
  nlinarith

theorem tanh_half_lt : Real.tanh (1/2) < 0.4622 := by
  rw [tanh_as_exp]
  have h : Real.exp (2 * (1/2)) = Real.exp 1 := by norm_num
  rw [h]
  have h1 := Real.exp_one_lt_d9
  have h2 := Real.exp_one_gt_d9
  rw [div_lt_iff (by linarith)]
  nlinarith

theorem tanh_half_pos : 0 < Real.tanh (1/2) := by
  rw [tanh_as_exp]
  have h : Real.exp (2 * (1/2)) = Real.exp 1 := by norm_num
  rw [h]
  have h2 := Real.exp_one_gt_d9
  apply div_pos <;> nlinarith

/-- Iterating the dc-decouple stage on a constant input `c` from its zeroed
register: `dcRun c n` is the stage output register after `n` samples. -/
noncomputable def dcRun (c : ℝ) : ℕ → ℝ
  | 0 => 0
  | n + 1 => dc_decouple c (dcRun c n)

/-- The value stored in the wet delay lines every sample during the idle
(silence, default parameters) run: the hysteresis stage pins the signal
at `-1/8000` and the mode-0 saturation maps it to this constant. -/
noncomputable def idleSatOut : ℝ := Real.tanh (-(1/16000)) / Real.tanh (1/2)

/-- The native post-gain at the default `post_gain` control value. -/
noncomputable def idlePostGain : ℝ := (0.70710678 : ℝ) ^ (2 : ℕ) * 2

/-- The invariant of the idle (silence, default parameters) run after `n`
samples, `1 ≤ n ≤ 2205`: audio registers pinned, the wet delay lines hold
`n` copies of `idleSatOut` behind `4410 - n` zeros, the dry lines stay
all-zero.  RNG, oscillator and flutter-filter state are unconstrained. -/
def IdleInv (n : ℕ) (e : Effect) : Prop :=
  e.sr = 44100 ∧ e.rate = 1 / 44100 ∧
  e.xl_h_z1 = -(1/8000) ∧ e.xr_h_z1 = -(1/8000) ∧
  e.xl_q_z1 = -(1/8000) ∧ e.xr_q_z1 = -(1/8000) ∧
  e.xl_e_z1 = 0 ∧ e.xr_e_z1 = 0 ∧ e.yl_z1 = 0 ∧ e.yr_z1 = 0 ∧
  e.dly_line_l = List.replicate (4410 - n) 0 ++ List.replicate n idleSatOut ∧
  e.dly_line_r = List.replicate (4410 - n) 0 ++ List.replicate n idleSatOut ∧
  e.dry_line_l = List.replicate 2205 0 ∧ e.dry_line_r = List.replicate 2205 0

/-! ## Claim theorems -/

/-- Claim C1 (code_bug evidence): the modulated delay read performs no
clamping of the computed read index.  At modulation value `mod = 2` the
floored index is `4410`, one past the last valid index of the
4410-sample buffer, and the buffer access fails (`delayRead = none`,
i.e. the source's `.unwrap()` panics), contradicting the claimed clamp
to `[0, 4408]`. -/
theorem c1_delay_read_unclamped :
    delayRead (List.replicate 4410 0) 2 = none := by
  unfold delayRead
  have h : (Int.floor ((2205 : ℝ) * 2)).toNat = 4410 := by
    rw [show ((2205:ℝ) * 2) = ((4410:ℤ) : ℝ) by norm_num, Int.floor_intCast]
    rfl
  simp only [h, List.getElem?_replicate]
  norm_num

/-- Claim C2: determinism of the pipeline.  Two runs whose engines are both
the freshly constructed `Effect::default` — whose RNG is seeded with the
fixed constant `33186003`, not with the time — produce identical output
streams when fed identical inputs and identical parameter values. -/
theorem c2_fixed_seed_determinism (p : EffectParameters) (ins : List (ℝ × ℝ))
    (e₁ e₂ : Effect) (h₁ : e₁ = Effect.default) (h₂ : e₂ = Effect.default) :
    (runPipeline p e₁ ins).1 = (runPipeline p e₂ ins).1 ∧
      Effect.default.rng = xoshiroSeedFromU64 33186003 := by
  subst h₁
  subst h₂
  exact ⟨rfl, rfl⟩

/-- Witness for C2 at a concrete parameter snapshot and input block. -/
theorem c2_fixed_seed_determinism_witness :
    (runPipeline EffectParameters.default Effect.default [((0:ℝ), (0:ℝ))]).1 =
      (runPipeline EffectParameters.default Effect.default [((0:ℝ), (0:ℝ))]).1 ∧
      Effect.default.rng = xoshiroSeedFromU64 33186003 :=
  c2_fixed_seed_determinism EffectParameters.default [((0:ℝ), (0:ℝ))]
    Effect.default Effect.default rfl rfl

/-- Claim C3 (counterexample): the claim puts the hysteresis-quantization
draws before the recording-noise draws, but in the code the
recording-noise site draws from the shared stream strictly before the
left-channel quantization site, as the per-sample call-site trace
shows. -/
theorem c3_claimed_order_false :
    (processSample EffectParameters.default Effect.default (0, 0)).2.2 =
      [Site.recL, Site.recR, Site.quantL, Site.quantR, Site.grain, Site.flutter,
       Site.playL, Site.playR] ∧
    ¬ List.indexOf Site.quantL
        ((processSample EffectParameters.default Effect.default (0, 0)).2.2) <
      List.indexOf Site.recL
        ((processSample EffectParameters.default Effect.default (0, 0)).2.2) := by
  have h : (processSample EffectParameters.default Effect.default (0, 0)).2.2 =
      [Site.recL, Site.recR, Site.quantL, Site.quantR, Site.grain, Site.flutter,
       Site.playL, Site.playR] := rfl
  rw [h]
  exact ⟨rfl, by decide⟩

/-- Claim C3 (amended): within each processed sample the shared stream is
drawn in exactly this order: recording noise (left, then right), then
hysteresis quantization (left, then right), then grain noise, then
flutter noise, then playback noise (left, then right) — for every
parameter snapshot, engine state and input. -/
theorem c3_draw_order (p : EffectParameters) (e : Effect) (i : ℝ × ℝ) :
    (processSample p e i).2.2 =
      [Site.recL, Site.recR, Site.quantL, Site.quantR, Site.grain, Site.flutter,
       Site.playL, Site.playR] := rfl

/-- Claim C5 (counterexample): with quantization amount `0` the stochastic
quantizer is not the identity.  At `x = 1/100000`, `x_p = 0`,
`T = 1/44100` the slope magnitude is `0.441 < 1`, and an RNG state whose
next draw is `u64::MAX` yields the variate `r = 1`, so the test
`r < |dx|` fails and the quantizer returns the held value `0 ≠ x`. -/
theorem c5_amount_zero_not_identity :
    (x_quant (1/100000) 0 (1/44100) 0 ⟨18446744073709551615, 0, 0, 0⟩).1 = 0 ∧
      ((0 : ℝ) ≠ 1/100000) := by
  constructor
  · unfold x_quant diff
    have h1 : (⟨18446744073709551615, 0, 0, 0⟩ : Xoshiro256Plus).next.1 =
        18446744073709551615 := by
      unfold Xoshiro256Plus.next
      norm_num
    have h2 : u64ToUnit ((⟨18446744073709551615, 0, 0, 0⟩ : Xoshiro256Plus).next.1) =
        1 := by
      rw [h1]
      unfold u64ToUnit
      norm_num
    simp only [h2, Real.one_rpow, sub_zero, mul_one]
    rw [if_neg]
    rw [abs_of_nonneg (by norm_num)]
    norm_num
  · norm_num

/-- Claim C5 (amended): with quantization amount `0` the quantizer returns
the new value `x` whenever the one-sample step exceeds the sample period
(`T < |x - x_p|`, i.e. slope magnitude above `1`, which dominates every
possible variate `r ≤ 1`); for smaller steps it can hold `x_p`, so it is
the identity only on sufficiently fast-moving input. -/
theorem c5_amount_zero_switch (x x_p T : ℝ) (rng : Xoshiro256Plus)
    (hT : 0 < T) (h : T < |x - x_p|) :
    (x_quant x x_p T 0 rng).1 = x := by
  rw [x_quant_switch x x_p T rng hT h]

/-- Witness for C5 (amended) at a concrete input and RNG state. -/
theorem c5_amount_zero_switch_witness :
    (0 : ℝ) < 1/2 ∧ (1/2 : ℝ) < |1 - (0:ℝ)| ∧
      (x_quant 1 0 (1/2) 0 ⟨0, 0, 0, 0⟩).1 = 1 :=
  ⟨by norm_num, by norm_num,
    c5_amount_zero_switch 1 0 (1/2) ⟨0, 0, 0, 0⟩ (by norm_num) (by norm_num)⟩

/-- Claim C6 (counterexample): the transfer-curve contract `|f(x)| ≤ 1` on
`|x| ≤ 10` fails: `tape_sat_2 10 = 51730/50273 ≈ 1.029 > 1`. -/
theorem c6_tape_sat_2_exceeds_one : 1 < tape_sat_2 10 := by
  unfold tape_sat_2
  norm_num

/-- Claim C6 (amended): every saturation curve of the library vanishes at
zero: `tape_sat_1 0 = 0`, `tape_sat_2 0 = 0`, `soft_clip 0 = 0` and
`tupe_sat 0 = 0` (the bound `|f| ≤ 1` on `[-10,10]` is however violated
by `tape_sat_2`, and `tupe_sat`'s tangent term is unbounded near
`x ≈ 1.08`). -/
theorem c6_curves_vanish_at_zero :
    tape_sat_1 0 = 0 ∧ tape_sat_2 0 = 0 ∧ soft_clip 0 = 0 ∧ tupe_sat 0 = 0 := by
  refine ⟨?_, ?_, ?_, ?_⟩
  · unfold tape_sat_1
    rw [if_neg (by norm_num), if_neg (by norm_num), Real.sin_zero]
    simp only [zero_mul, Real.tanh_zero]
  · unfold tape_sat_2
    norm_num
  · unfold soft_clip
    have h : ((1 : ℝ) + Real.exp (10 * 0 + 5)) / (1 + Real.exp (10 * 0 - 5)) =
        Real.exp 5 := by
      rw [div_eq_iff (by positivity)]
      rw [mul_add, mul_one, ← Real.exp_add]
      rw [show (10:ℝ) * 0 + 5 = 5 by norm_num, show (5:ℝ) + (10 * 0 - 5) = 0 by norm_num,
        Real.exp_zero]
      ring
    rw [h, Real.log_exp]
    norm_num
  · unfold tupe_sat
    rw [mul_zero, Real.tan_zero, Real.tanh_zero]
    rw [if_neg (by rw [abs_zero]; norm_num)]
    rw [abs_zero]
    ring

/-- Claim C7 (counterexample): neither crossover curve reduces to the
identity at `amount = 0`: at `x = 1`, `w = 2`, `digi_xover` returns `0`
(it subtracts the whole signal) and `analog_xover` returns
`1.41421356*(√2 - 1) ≈ 0.586 ≠ 1`. -/
theorem c7_amount_zero_not_identity :
    digi_xover 1 0 2 = 0 ∧ analog_xover 1 0 2 ≠ 1 := by
  constructor
  · unfold digi_xover
    rw [if_pos (by rw [abs_one]; norm_num), atanh_zero]
    norm_num
  · unfold analog_xover
    rw [if_pos (by rw [abs_one]; norm_num)]
    simp only [abs_one, sub_self, sub_zero, mul_one, Real.sqrt_one]
    rw [sgn_nonneg_eq_one (by norm_num)]
    have h1 : Real.sqrt 2 < 1.5 := by
      rw [show (1.5:ℝ) = Real.sqrt (1.5 ^ 2) by rw [Real.sqrt_sq]; norm_num]
      exact Real.sqrt_lt_sqrt (by norm_num) (by norm_num)
    have h2 : (0:ℝ) ≤ Real.sqrt 2 := Real.sqrt_nonneg 2
    intro hc
    rw [show ((1:ℝ) * (2 - 1)) = 1 by norm_num, show ((1:ℝ) * 2) = 2 by norm_num,
      Real.sqrt_one] at hc
    nlinarith

/-- Claim C8 (code_bug evidence): the dc-decouple stage
`y[n] = x[n] - 0.25*y[n-1]` does not converge toward zero on constant
input.  On constant input `1` from the zeroed register the output is
exactly `4/5*(1 - (-1/4)^(n+1))`: it converges geometrically to `4/5`
(DC gain `0.8`), staying at or above `3/5` forever, contradicting the
source comment "essentially just a high pass filter at 5Hz" and the
claimed decay toward zero. -/
theorem c8_dc_decouple_no_dc_rejection (n : ℕ) :
    dcRun 1 (n + 1) = 4/5 * (1 - (-1/4 : ℝ) ^ (n + 1)) ∧ (3/5 : ℝ) ≤ dcRun 1 (n + 1) := by
  have key : ∀ m : ℕ, dcRun 1 (m + 1) = 4/5 * (1 - (-1/4 : ℝ) ^ (m + 1)) := by
    intro m
    induction m with
    | zero =>
      show dc_decouple 1 (dcRun 1 0) = _
      unfold dc_decouple dcRun
      norm_num
    | succ k ih =>
      show dc_decouple 1 (dcRun 1 (k + 1)) = _
      unfold dc_decouple
      rw [ih]
      ring
  refine ⟨key n, ?_⟩
  rw [key n]
  have habs : |(-1/4 : ℝ) ^ (n + 1)| ≤ 1/4 := by
    rw [abs_pow]
    rw [show |(-1/4 : ℝ)| = 1/4 by rw [abs_div]; norm_num]
    calc ((1:ℝ)/4) ^ (n + 1) ≤ (1/4) ^ 1 :=
      pow_le_pow_of_le_one (by norm_num) (by norm_num) (by omega)
    _ = 1/4 := pow_one _
  have h := abs_le.1 habs
  nlinarith [h.1, h.2]

/-- Claim C9 (counterexample): the phase accumulators are not confined to
`[0, 2π)` after every update: starting from the in-range value
`6.28318 < 2π`, one `ramp_mod` update at the 44.1 kHz increment
`TAU*(MOD_RATE/44100)` lands strictly beyond `2π` (the reset only fires
on the next sample, since the wrap test inspects the pre-increment
value). -/
theorem c9_ramp_exceeds_tau :
    (0 ≤ (6.28318 : ℝ) ∧ (6.28318 : ℝ) < TAU) ∧
      ¬ rampUpdate 6.28318 (TAU * (MOD_RATE / 44100)) < TAU := by
  have hlt := Real.pi_lt_d6
  have hgt := Real.pi_gt_d6
  have hT : TAU = 2 * Real.pi := rfl
  have hM : MOD_RATE = 0.23 := rfl
  have h1 : (6.28318 : ℝ) < TAU := by rw [hT]; nlinarith
  have h2 : TAU ≤ 6.28318 + TAU * (MOD_RATE / 44100) := by rw [hT, hM]; nlinarith
  refine ⟨⟨by norm_num, h1⟩, ?_⟩
  unfold rampUpdate
  rw [if_neg (not_lt.2 h1.le)]
  exact not_lt.2 h2

/-- Claim C9 (amended): each phase accumulator is confined to
`[0, 2π + inc]` where `inc ≥ 0` is its per-sample increment: a value
beyond `2π` is reset to exactly zero (not reduced by `2π`) on the next
update, and otherwise the increment is added, so values in
`(2π, 2π + inc]` persist for exactly one sample. -/
theorem c9_ramp_confined (r inc : ℝ) (h0 : 0 ≤ r) (hi : 0 ≤ inc)
    (hb : r ≤ TAU + inc) :
    (0 ≤ rampUpdate r inc ∧ rampUpdate r inc ≤ TAU + inc) ∧
      (r > TAU → rampUpdate r inc = 0) := by
  have hpi := Real.pi_pos
  unfold rampUpdate TAU
  rcases le_or_lt r (2 * Real.pi) with h | h
  · rw [if_neg (not_lt.2 h)]
    refine ⟨⟨by linarith, by linarith⟩, ?_⟩
    intro hcon
    linarith
  · rw [if_pos h]
    refine ⟨⟨le_rfl, by linarith⟩, fun _ => rfl⟩

/-- Witness for C9 (amended) at `r = 0`, `inc = 1`. -/
theorem c9_ramp_confined_witness :
    ((0:ℝ) ≤ 0 ∧ (0:ℝ) ≤ 1 ∧ (0:ℝ) ≤ TAU + 1) ∧
      ((0 ≤ rampUpdate 0 1 ∧ rampUpdate 0 1 ≤ TAU + 1) ∧
        ((0:ℝ) > TAU → rampUpdate 0 1 = 0)) :=
  ⟨⟨le_rfl, by norm_num, by unfold TAU; positivity⟩,
    c9_ramp_confined 0 1 le_rfl (by norm_num)
      (by unfold TAU; positivity)⟩

/-- Claim C10: per processed sample the grain-noise stage draws exactly one
uniform variate and adds the identical value `grain^18*hiss*0.33` to the
left and right channels, while the recording/playback-noise stages
(`blueNoiseAdd`, with scales `0.01` and `0.03`) each draw exactly two
variates, the first feeding the left channel and the second the right;
the per-sample trace confirms one `grain` draw and one draw per channel
at the `rec`/`play` sites. -/
theorem c10_noise_draw_structure (rng : Xoshiro256Plus)
    (hiss scale zl zr xl xr : ℝ) (p : EffectParameters) (e : Effect) (i : ℝ × ℝ) :
    ((grainNoise rng hiss xl xr).1.1 - xl = u64ToUnit rng.next.1 ^ (18:ℕ) * hiss * 0.33 ∧
     (grainNoise rng hiss xl xr).1.2 - xr = u64ToUnit rng.next.1 ^ (18:ℕ) * hiss * 0.33 ∧
     (grainNoise rng hiss xl xr).1.1 - xl = (grainNoise rng hiss xl xr).1.2 - xr ∧
     (grainNoise rng hiss xl xr).2 = rng.next.2) ∧
    ((blueNoiseAdd rng hiss scale zl zr xl xr).1.1 - xl
        = (u64ToUnit rng.next.1 - zl * 0.5) * hiss * scale ∧
     (blueNoiseAdd rng hiss scale zl zr xl xr).1.2 - xr
        = (u64ToUnit rng.next.2.next.1 - zr * 0.5) * hiss * scale ∧
     (blueNoiseAdd rng hiss scale zl zr xl xr).2.2 = rng.next.2.next.2) ∧
    (((processSample p e i).2.2).count Site.grain = 1 ∧
     ((processSample p e i).2.2).count Site.recL = 1 ∧
     ((processSample p e i).2.2).count Site.recR = 1 ∧
     ((processSample p e i).2.2).count Site.playL = 1 ∧
     ((processSample p e i).2.2).count Site.playR = 1) := by
  refine ⟨⟨?_, ?_, ?_, rfl⟩, ⟨?_, ?_, rfl⟩, ?_⟩
  · unfold grainNoise; ring
  · unfold grainNoise; ring
  · unfold grainNoise; ring
  · unfold blueNoiseAdd; ring
  · unfold blueNoiseAdd; ring
  · have h : (processSample p e i).2.2 =
        [Site.recL, Site.recR, Site.quantL, Site.quantR, Site.grain, Site.flutter,
         Site.playL, Site.playR] := rfl
    rw [h]
    refine ⟨by decide, by decide, by decide, by decide, by decide⟩

/-- Claim C7 (amended): the crossover curves are the identity in the
degenerate-width corner instead: `digi_xover x amt 0 = x` for every
amount, and `analog_xover x 1 0 = x`; at `amount = 0` with positive
width both curves deviate from the identity (e.g. at `x = 1`, `w = 2`). -/
theorem c7_identity_at_zero_width (x amt : ℝ) :
    digi_xover x amt 0 = x ∧ analog_xover x 1 0 = x := by
  constructor
  · unfold digi_xover
    rw [if_neg (not_lt.2 (abs_nonneg x))]
    rw [mul_zero, zero_div]
    ring
  · unfold analog_xover
    rw [if_neg (by rw [sub_self, zero_div, sub_zero]; exact not_lt.2 (abs_nonneg x))]
    simp only [sub_self, mul_zero, zero_mul, Real.sqrt_zero, zero_sub, neg_zero,
      zero_div, sub_zero, mul_one, zero_add]
    exact abs_mul_sgn x

theorem axover_w0 (d amt : ℝ) (h : amt ≤ 1) :
    analog_xover d amt 0 = (|d| - (1 - amt)/2) * sgn d := by
  unfold analog_xover
  rw [if_neg (by push_neg; nlinarith [abs_nonneg d])]
  simp only [sub_self, sub_zero, mul_zero, zero_mul, Real.sqrt_zero]
  ring_nf

theorem tail_helper {k : ℕ} (hk : 1 ≤ k) (A : List ℝ) :
    (List.replicate k (0:ℝ) ++ A).tail = List.replicate (k-1) 0 ++ A := by
  cases k with
  | zero => omega
  | succ m => simp [List.replicate_succ]

theorem rep_push (n : ℕ) (v : ℝ) :
    List.replicate n v ++ [v] = List.replicate (n+1) v :=
  (List.replicate_succ' n v).symm

theorem satChain_eq :
    soft_sat_1 ((-(1/8000) : ℝ) * (1/2)) / soft_sat_1 (1/2)
      - soft_sat_1 0 / soft_sat_1 (1/2) = idleSatOut := by
  unfold soft_sat_1 idleSatOut
  rw [Real.tanh_zero]
  norm_num

theorem read0 (k m : ℕ) (v : ℝ) (hk : 2206 ≤ k) (hkm : k + m = 4410) :
    delayRead (List.replicate k (0:ℝ) ++ List.replicate m v) 1 = some 0 := by
  unfold delayRead
  have hf : (Int.floor ((2205:ℝ) * 1)).toNat = 2205 := by
    rw [show ((2205:ℝ) * 1) = ((2205:ℤ) : ℝ) by norm_num, Int.floor_intCast]
    rfl
  have h1 : (List.replicate k (0:ℝ) ++ List.replicate m v)[(2205:ℕ)]? = some 0 := by
    rw [List.getElem?_append, List.length_replicate, if_pos (by omega),
      List.getElem?_replicate, if_pos (by omega)]
  have hlen2 : 2206 < (List.replicate k (0:ℝ) ++ List.replicate m v).length := by
    rw [List.length_append, List.length_replicate, List.length_replicate]
    omega
  obtain ⟨b, h2⟩ : ∃ b, ((List.replicate k (0:ℝ) ++ List.replicate m v))[(2206:ℕ)]? =
      some b := ⟨_, List.getElem?_eq_getElem hlen2⟩
  simp only [hf, h1, h2]
  norm_num

theorem idle_step (n : ℕ) (e : Effect) (h1 : 1 ≤ n) (h2 : n ≤ 2203) (hI : IdleInv n e) :
    ((processSample EffectParameters.default e (0, 0)).1.1 = 0 ∧
     (processSample EffectParameters.default e (0, 0)).1.2 = 0) ∧
    IdleInv (n + 1) (processSample EffectParameters.default e (0, 0)).2.1 := by
  obtain ⟨hsr, hrate, hhl, hhr, hql, hqr, hel, her, hyl, hyr, hdll, hdlr, hdryl, hdryr⟩ := hI
  have hread : delayRead (List.replicate (4410 - (n+1)) (0:ℝ)
      ++ List.replicate (n+1) idleSatOut) 1 = some 0 :=
    read0 _ _ _ (by omega) (by omega)
  have harith : 4410 - n - 1 = 4410 - (n + 1) := by omega
  refine ⟨⟨?_, ?_⟩, ?_, ?_, ?_, ?_, ?_, ?_, ?_, ?_, ?_, ?_, ?_, ?_, ?_, ?_⟩
  · -- left output
    simp only [processSample, EffectParameters.default, blueNoiseAdd, grainNoise]
    norm_num
    simp only [hhl, hql, hel, hyl, hdll]
    rw [axover_w0 _ _ (by norm_num), sgn_nonneg_eq_one (by norm_num),
      abs_of_nonneg (by norm_num)]
    norm_num
    rw [x_quant_hold]
    simp only [Prod.fst]
    rw [satChain_eq, rep_push, tail_helper (by omega), harith, hread]
    norm_num [dc_decouple]
  · -- right output
    simp only [processSample, EffectParameters.default, blueNoiseAdd, grainNoise]
    norm_num
    simp only [hhr, hqr, her, hyr, hdlr]
    rw [axover_w0 _ _ (by norm_num), sgn_nonneg_eq_one (by norm_num),
      abs_of_nonneg (by norm_num)]
    norm_num
    rw [x_quant_hold]
    simp only [Prod.fst]
    rw [satChain_eq, rep_push, tail_helper (by omega), harith, hread]
    norm_num [dc_decouple]
  · exact hsr
  · exact hrate
  · -- xl_h_z1
    simp only [processSample, EffectParameters.default, blueNoiseAdd, grainNoise]
    norm_num
    simp only [hhl]
    rw [axover_w0 _ _ (by norm_num), sgn_nonneg_eq_one (by norm_num),
      abs_of_nonneg (by norm_num)]
    norm_num
  · -- xr_h_z1
    simp only [processSample, EffectParameters.default, blueNoiseAdd, grainNoise]
    norm_num
    simp only [hhr]
    rw [axover_w0 _ _ (by norm_num), sgn_nonneg_eq_one (by norm_num),
      abs_of_nonneg (by norm_num)]
    norm_num
  · -- xl_q_z1
    simp only [processSample, EffectParameters.default, blueNoiseAdd, grainNoise]
    norm_num
    simp only [hhl, hql]
    rw [axover_w0 _ _ (by norm_num), sgn_nonneg_eq_one (by norm_num),
      abs_of_nonneg (by norm_num)]
    norm_num
    rw [x_quant_hold]
  · -- xr_q_z1
    simp only [processSample, EffectParameters.default, blueNoiseAdd, grainNoise]
    norm_num
    simp only [hhr, hqr]
    rw [axover_w0 _ _ (by norm_num), sgn_nonneg_eq_one (by norm_num),
      abs_of_nonneg (by norm_num)]
    norm_num
    rw [x_quant_hold]
  · -- xl_e_z1
    simp only [processSample, EffectParameters.default, blueNoiseAdd, grainNoise]
    norm_num
    simp only [hhl, hql, hel, hdll]
    rw [axover_w0 _ _ (by norm_num), sgn_nonneg_eq_one (by norm_num),
      abs_of_nonneg (by norm_num)]
    norm_num
    rw [x_quant_hold]
    simp only [Prod.fst]
    rw [satChain_eq, rep_push, tail_helper (by omega), harith, hread]
    norm_num
  · -- xr_e_z1
    simp only [processSample, EffectParameters.default, blueNoiseAdd, grainNoise]
    norm_num
    simp only [hhr, hqr, her, hdlr]
    rw [axover_w0 _ _ (by norm_num), sgn_nonneg_eq_one (by norm_num),
      abs_of_nonneg (by norm_num)]
    norm_num
    rw [x_quant_hold]
    simp only [Prod.fst]
    rw [satChain_eq, rep_push, tail_helper (by omega), harith, hread]
    norm_num
  · -- yl_z1
    simp only [processSample, EffectParameters.default, blueNoiseAdd, grainNoise]
    norm_num
    simp only [hhl, hql, hel, hyl, hdll]
    rw [axover_w0 _ _ (by norm_num), sgn_nonneg_eq_one (by norm_num),
      abs_of_nonneg (by norm_num)]
    norm_num
    rw [x_quant_hold]
    simp only [Prod.fst]
    rw [satChain_eq, rep_push, tail_helper (by omega), harith, hread]
    norm_num [dc_decouple]
  · -- yr_z1
    simp only [processSample, EffectParameters.default, blueNoiseAdd, grainNoise]
    norm_num
    simp only [hhr, hqr, her, hyr, hdlr]
    rw [axover_w0 _ _ (by norm_num), sgn_nonneg_eq_one (by norm_num),
      abs_of_nonneg (by norm_num)]
    norm_num
    rw [x_quant_hold]
    simp only [Prod.fst]
    rw [satChain_eq, rep_push, tail_helper (by omega), harith, hread]
    norm_num [dc_decouple]
  · -- dly_line_l
    simp only [processSample, EffectParameters.default, blueNoiseAdd, grainNoise]
    norm_num
    simp only [hhl, hql, hdll]
    rw [axover_w0 _ _ (by norm_num), sgn_nonneg_eq_one (by norm_num),
      abs_of_nonneg (by norm_num)]
    norm_num
    rw [x_quant_hold]
    simp only [Prod.fst]
    rw [satChain_eq, rep_push, tail_helper (by omega), harith]
  · -- dly_line_r
    simp only [processSample, EffectParameters.default, blueNoiseAdd, grainNoise]
    norm_num
    simp only [hhr, hqr, hdlr]
    rw [axover_w0 _ _ (by norm_num), sgn_nonneg_eq_one (by norm_num),
      abs_of_nonneg (by norm_num)]
    norm_num
    rw [x_quant_hold]
    simp only [Prod.fst]
    rw [satChain_eq, rep_push, tail_helper (by omega), harith]
  · -- dry_line_l
    simp only [processSample, EffectParameters.default, blueNoiseAdd, grainNoise]
    norm_num
    simp only [hdryl]
    rw [tail_helper (by omega)]
    norm_num
    rw [rep_push]
  · -- dry_line_r
    simp only [processSample, EffectParameters.default, blueNoiseAdd, grainNoise]
    norm_num
    simp only [hdryr]
    rw [tail_helper (by omega)]
    norm_num
    rw [rep_push]

theorem read_final (v : ℝ) :
    delayRead (List.replicate 2205 (0:ℝ) ++ List.replicate 2205 v) 1 = some v := by
  unfold delayRead
  have hf : (Int.floor ((2205:ℝ) * 1)).toNat = 2205 := by
    rw [show ((2205:ℝ) * 1) = ((2205:ℤ) : ℝ) by norm_num, Int.floor_intCast]
    rfl
  have h1 : (List.replicate 2205 (0:ℝ) ++ List.replicate 2205 v)[(2205:ℕ)]? = some v := by
    rw [List.getElem?_append_right (by rw [List.length_replicate])]
    rw [List.length_replicate]
    rw [show (2205:ℕ) - 2205 = 0 from rfl]
    rw [List.getElem?_replicate, if_pos (by omega)]
  have h2 : (List.replicate 2205 (0:ℝ) ++ List.replicate 2205 v)[(2206:ℕ)]? = some v := by
    rw [List.getElem?_append_right (by rw [List.length_replicate]; omega)]
    rw [List.length_replicate]
    rw [show (2206:ℕ) - 2205 = 1 from rfl]
    rw [List.getElem?_replicate, if_pos (by omega)]
  simp only [hf, h1, h2]
  norm_num

theorem x_quant_first (rng : Xoshiro256Plus) :
    x_quant (-(1/8000)) 0 (1/44100) 0 rng = (-(1/8000), rng.next.2) :=
  x_quant_switch _ _ _ rng (by norm_num) (by rw [sub_zero]; rw [abs_of_nonpos (by norm_num)]; norm_num)

theorem idle_step0 :
    ((processSample EffectParameters.default Effect.default (0, 0)).1.1 = 0 ∧
     (processSample EffectParameters.default Effect.default (0, 0)).1.2 = 0) ∧
    IdleInv 1 (processSample EffectParameters.default Effect.default (0, 0)).2.1 := by
  have hread : delayRead (List.replicate 4409 (0:ℝ)
      ++ List.replicate 1 idleSatOut) 1 = some 0 :=
    read0 _ _ _ (by omega) (by omega)
  simp only [List.replicate_one] at hread
  refine ⟨⟨?_, ?_⟩, ?_, ?_, ?_, ?_, ?_, ?_, ?_, ?_, ?_, ?_, ?_, ?_, ?_, ?_⟩
  all_goals
    simp only [processSample, EffectParameters.default, Effect.default,
      blueNoiseAdd, grainNoise]
    norm_num
  all_goals try rw [axover_w0 _ _ (by norm_num), sgn_nonneg_eq_one le_rfl]
  all_goals try norm_num
  all_goals try rw [x_quant_first]
  all_goals try simp only [Prod.fst]
  all_goals try rw [satChain_eq]
  all_goals try rw [hread]
  all_goals try norm_num [dc_decouple]
  all_goals rw [rep_push]

theorem idle_final (e : Effect) (hI : IdleInv 2204 e) :
    (processSample EffectParameters.default e (0, 0)).1.1 =
      Real.tanh idleSatOut * idlePostGain ∧
    (processSample EffectParameters.default e (0, 0)).1.2 =
      Real.tanh idleSatOut * idlePostGain := by
  obtain ⟨hsr, hrate, hhl, hhr, hql, hqr, hel, her, hyl, hyr, hdll, hdlr, hdryl, hdryr⟩ := hI
  have hread : delayRead (List.replicate 2205 (0:ℝ)
      ++ List.replicate 2205 idleSatOut) 1 = some idleSatOut := read_final _
  have harith : 4410 - 2204 - 1 = 2205 := by omega
  have harith2 : (2204:ℕ) + 1 = 2205 := by omega
  constructor
  · simp only [processSample, EffectParameters.default, blueNoiseAdd, grainNoise]
    norm_num
    simp only [hhl, hql, hel, hyl, hdll]
    rw [axover_w0 _ _ (by norm_num), sgn_nonneg_eq_one (by norm_num),
      abs_of_nonneg (by norm_num)]
    norm_num
    rw [x_quant_hold]
    simp only [Prod.fst]
    rw [satChain_eq, rep_push, harith2, hread]
    unfold idlePostGain dc_decouple
    norm_num
  · simp only [processSample, EffectParameters.default, blueNoiseAdd, grainNoise]
    norm_num
    simp only [hhr, hqr, her, hyr, hdlr]
    rw [axover_w0 _ _ (by norm_num), sgn_nonneg_eq_one (by norm_num),
      abs_of_nonneg (by norm_num)]
    norm_num
    rw [x_quant_hold]
    simp only [Prod.fst]
    rw [satChain_eq, rep_push, harith2, hread]
    unfold idlePostGain dc_decouple
    norm_num

theorem runPipeline_append (p : EffectParameters) (e : Effect) (as bs : List (ℝ × ℝ)) :
    runPipeline p e (as ++ bs) =
      ((runPipeline p e as).1 ++ (runPipeline p (runPipeline p e as).2 bs).1,
       (runPipeline p (runPipeline p e as).2 bs).2) := by
  induction as generalizing e with
  | nil => simp [runPipeline]
  | cons a as ih =>
    rw [List.cons_append, runPipeline_cons, runPipeline_cons, ih]
    rfl

theorem idle_zero_run (k : ℕ) : ∀ (n : ℕ) (e : Effect), 1 ≤ n → n + k ≤ 2204 → IdleInv n e →
    (runPipeline EffectParameters.default e (List.replicate k ((0:ℝ), (0:ℝ)))).1 =
      List.replicate k ((0:ℝ), (0:ℝ)) ∧
    IdleInv (n + k)
      (runPipeline EffectParameters.default e (List.replicate k ((0:ℝ), (0:ℝ)))).2 := by
  induction k with
  | zero =>
    intro n e h1 h2 hI
    exact ⟨rfl, hI⟩
  | succ m ih =>
    intro n e h1 h2 hI
    obtain ⟨⟨ho1, ho2⟩, hInv⟩ := idle_step n e h1 (by omega) hI
    obtain ⟨houts, hstate⟩ := ih (n + 1) _ (by omega) (by omega) hInv
    constructor
    · calc (runPipeline EffectParameters.default e
            (List.replicate (m + 1) ((0:ℝ), (0:ℝ)))).1
          = (processSample EffectParameters.default e ((0:ℝ), (0:ℝ))).1 ::
            (runPipeline EffectParameters.default
              (processSample EffectParameters.default e ((0:ℝ), (0:ℝ))).2.1
              (List.replicate m ((0:ℝ), (0:ℝ)))).1 := rfl
        _ = List.replicate (m + 1) ((0:ℝ), (0:ℝ)) := by
            rw [houts, show (processSample EffectParameters.default e ((0:ℝ), (0:ℝ))).1 =
              ((0:ℝ), (0:ℝ)) from Prod.ext_iff.2 ⟨ho1, ho2⟩, ← List.replicate_succ]
    · rw [show n + (m + 1) = (n + 1) + m by omega]
      exact hstate

theorem idle_run_shape :
    (runPipeline EffectParameters.default Effect.default
        (List.replicate 2205 ((0:ℝ), (0:ℝ)))).1 =
      List.replicate 2204 ((0:ℝ), (0:ℝ)) ++
        [(Real.tanh idleSatOut * idlePostGain, Real.tanh idleSatOut * idlePostGain)] := by
  obtain ⟨⟨ho1, ho2⟩, hInv1⟩ := idle_step0
  obtain ⟨houts, hstate⟩ := idle_zero_run 2203 1
    (processSample EffectParameters.default Effect.default ((0:ℝ), (0:ℝ))).2.1
    (by omega) (by omega) hInv1
  obtain ⟨hf1, hf2⟩ := idle_final _ hstate
  calc (runPipeline EffectParameters.default Effect.default
          (List.replicate 2205 ((0:ℝ), (0:ℝ)))).1
      = (processSample EffectParameters.default Effect.default ((0:ℝ), (0:ℝ))).1 ::
        (runPipeline EffectParameters.default
          (processSample EffectParameters.default Effect.default ((0:ℝ), (0:ℝ))).2.1
          (List.replicate 2204 ((0:ℝ), (0:ℝ)))).1 := rfl
    _ = ((0:ℝ), (0:ℝ)) ::
        (runPipeline EffectParameters.default
          (processSample EffectParameters.default Effect.default ((0:ℝ), (0:ℝ))).2.1
          (List.replicate 2203 ((0:ℝ), (0:ℝ)) ++ [((0:ℝ), (0:ℝ))])).1 := by
        rw [show (processSample EffectParameters.default Effect.default ((0:ℝ), (0:ℝ))).1 =
          ((0:ℝ), (0:ℝ)) from Prod.ext_iff.2 ⟨ho1, ho2⟩,
          show List.replicate 2204 ((0:ℝ), (0:ℝ)) =
            List.replicate 2203 ((0:ℝ), (0:ℝ)) ++ [((0:ℝ), (0:ℝ))] from
              List.replicate_succ' 2203 ((0:ℝ), (0:ℝ))]
    _ = ((0:ℝ), (0:ℝ)) ::
        ((runPipeline EffectParameters.default
            (processSample EffectParameters.default Effect.default ((0:ℝ), (0:ℝ))).2.1
            (List.replicate 2203 ((0:ℝ), (0:ℝ)))).1 ++
          (runPipeline EffectParameters.default
            (runPipeline EffectParameters.default
              (processSample EffectParameters.default Effect.default ((0:ℝ), (0:ℝ))).2.1
              (List.replicate 2203 ((0:ℝ), (0:ℝ)))).2 [((0:ℝ), (0:ℝ))]).1) := by
        rw [runPipeline_append]
    _ = ((0:ℝ), (0:ℝ)) ::
        (List.replicate 2203 ((0:ℝ), (0:ℝ)) ++
          ((processSample EffectParameters.default
            (runPipeline EffectParameters.default
              (processSample EffectParameters.default Effect.default ((0:ℝ), (0:ℝ))).2.1
              (List.replicate 2203 ((0:ℝ), (0:ℝ)))).2 ((0:ℝ), (0:ℝ))).1 :: [])) := by
        rw [houts]
        rfl
    _ = ((0:ℝ), (0:ℝ)) ::
        (List.replicate 2203 ((0:ℝ), (0:ℝ)) ++
          [(Real.tanh idleSatOut * idlePostGain, Real.tanh idleSatOut * idlePostGain)]) := by
        rw [show (processSample EffectParameters.default
            (runPipeline EffectParameters.default
              (processSample EffectParameters.default Effect.default ((0:ℝ), (0:ℝ))).2.1
              (List.replicate 2203 ((0:ℝ), (0:ℝ)))).2 ((0:ℝ), (0:ℝ))).1 =
          (Real.tanh idleSatOut * idlePostGain, Real.tanh idleSatOut * idlePostGain) from
            Prod.ext_iff.2 ⟨hf1, hf2⟩]
    _ = List.replicate 2204 ((0:ℝ), (0:ℝ)) ++
        [(Real.tanh idleSatOut * idlePostGain, Real.tanh idleSatOut * idlePostGain)] := by
        rw [← List.cons_append, ← List.replicate_succ]

theorem idle_out_neg : Real.tanh idleSatOut * idlePostGain < -(1/10000) := by
  have hb_pos : 0 < Real.tanh (1/2) := tanh_half_pos
  have hb_lt : Real.tanh (1/2) < 0.4622 := tanh_half_lt
  have ha_ge : (1/16000 : ℝ)/(1 + 1/16000) ≤ Real.tanh (1/16000) :=
    tanh_ge_lower (by norm_num)
  have ha_pos : 0 < Real.tanh (1/16000) := by
    calc (0:ℝ) < (1/16000)/(1 + 1/16000) := by norm_num
      _ ≤ Real.tanh (1/16000) := ha_ge
  have hneg : idleSatOut = -(Real.tanh (1/16000) / Real.tanh (1/2)) := by
    unfold idleSatOut
    rw [Real.tanh_neg]
    ring
  have ht : (27/200000 : ℝ) ≤ Real.tanh (1/16000) / Real.tanh (1/2) := by
    rw [le_div_iff₀ hb_pos]
    nlinarith
  have hs_pos : (0:ℝ) < Real.tanh (1/16000) / Real.tanh (1/2) := by positivity
  have hlow : (27/200027 : ℝ) ≤
      (Real.tanh (1/16000) / Real.tanh (1/2)) /
        (1 + Real.tanh (1/16000) / Real.tanh (1/2)) := by
    rw [le_div_iff₀ (by linarith)]
    nlinarith
  have htanh_t : (27/200027 : ℝ) ≤
      Real.tanh (Real.tanh (1/16000) / Real.tanh (1/2)) :=
    le_trans hlow (tanh_ge_lower hs_pos.le)
  rw [hneg, Real.tanh_neg]
  have hpg1 : (0.999 : ℝ) < idlePostGain := by unfold idlePostGain; norm_num
  have hpg2 : idlePostGain ≤ 1 := by unfold idlePostGain; norm_num
  nlinarith

/-- Claim C4 (counterexample): silence through the pipeline with the
default (neutral) parameters does not stay at `0.0` within any
floating-point tolerance: sample 2205 (index 2204) of the output is
below `-1/10000` — a bias-introduced DC offset.  The hysteresis stage at
zero width maps `0` to `analog_xover 0 0.99975 0 = -(1-0.99975)/2 =
-1/8000` (Rust `signum(0.0) = 1.0`), the saturation stage scales it to
`idleSatOut ≈ -1.35e-4`, and it emerges once the 2205-tap delay fills. -/
theorem c4_idle_dc_offset :
    ((runPipeline EffectParameters.default Effect.default
        (List.replicate 2205 ((0:ℝ), (0:ℝ)))).1.getD 2204 (1, 1)).1 < -(1/10000) := by
  rw [idle_run_shape]
  rw [List.getD_eq_getElem?_getD,
    List.getElem?_append_right (by rw [List.length_replicate])]
  rw [List.length_replicate]
  rw [show (2204:ℕ) - 2204 = 0 from rfl]
  rw [show ([(Real.tanh idleSatOut * idlePostGain,
      Real.tanh idleSatOut * idlePostGain)][(0:ℕ)]?) =
    some (Real.tanh idleSatOut * idlePostGain,
      Real.tanh idleSatOut * idlePostGain) from rfl]
  rw [show (some (Real.tanh idleSatOut * idlePostGain,
      Real.tanh idleSatOut * idlePostGain)).getD ((1:ℝ), (1:ℝ)) =
    (Real.tanh idleSatOut * idlePostGain, Real.tanh idleSatOut * idlePostGain) from rfl]
  exact idle_out_neg

/-- Claim C4 (amended): silence with neutral/default parameters produces
exactly `0.0` on both channels for the first 2204 samples, but from
sample 2205 the delay line delivers the hysteresis-stage offset and the
output settles near `idleSatOut ≈ -1.35e-4`: the pipeline does have a
bias-introduced DC offset at idle, delayed by the wet path. -/
theorem c4_idle_prefix_silent (n : ℕ) (h : n < 2204) :
    (runPipeline EffectParameters.default Effect.default
        (List.replicate 2205 ((0:ℝ), (0:ℝ)))).1.getD n (1, 1) = (0, 0) := by
  rw [idle_run_shape]
  rw [List.getD_eq_getElem?_getD, List.getElem?_append, List.length_replicate,
    if_pos h, List.getElem?_replicate, if_pos h]
  rfl

/-- Witness for C4 (amended) at the first output sample. -/
theorem c4_idle_prefix_silent_witness :
    (0:ℕ) < 2204 ∧
      (runPipeline EffectParameters.default Effect.default
          (List.replicate 2205 ((0:ℝ), (0:ℝ)))).1.getD 0 (1, 1) = (0, 0) :=
  ⟨by norm_num, c4_idle_prefix_silent 0 (by norm_num)⟩
